import Mathlib

/-!
Shallow embedding of the Adaptyv EGFR post-competition batch annotation
pipeline (adaptyv_analyses), covering:

* `src/utils/interface.py` — spatial interface detection
  (`hotspot_residues`, `analyze_interface_contacts`);
* `src/utils/relax.py` — cache-aware relaxation adapter (`pr_relax`);
* `src/utils/dssp.py` — secondary-structure aggregation
  (`calc_ss_percentage`);
* `src/utils/scores.py` — interface scoring (`score_interface`);
* `src/processing/parse.py` — structure-file lookup (`get_pdb_files`);
* `src/processing/batch.py` — per-submission pipeline
  (`process_submission`) and batch orchestration
  (`process_submissions_batch`).

External collaborators (PyRosetta, the DSSP executable, the filesystem,
pandas I/O) are modelled as explicit environment records whose fields give
the outcome of each external call; machine floats are modelled as exact
rationals; Python exceptions are modelled with `Except`; Python `None` with
`Option`.  The k-d-tree neighbour query `query_ball_tree` (SciPy) returns,
for every binder atom, the list of target-atom indices within the Euclidean
cutoff; it is embedded extensionally as the list of the indexed target
atoms themselves (the source dereferences every returned index into
`target_atoms`), with the closed-ball comparison expressed on squared
distances to stay inside ℚ.
-/

/-- Python exception values that the embedded code distinguishes.
`chainNotFound` and `emptyChain` stand for the two `ValueError`s raised at
`interface.py` lines 15-26 (and the chain check at `dssp.py` line 27);
`keyError` models Bio.PDB's `KeyError` on `structure[0][chain]` when the
chain is absent; `fileNotFound` models `FileNotFoundError`; `generic`
carries any other exception message. -/
inductive PyErr where
  | chainNotFound (chain : String)
  | emptyChain (chain : String)
  | keyError (key : String)
  | fileNotFound (msg : String)
  | generic (msg : String)
deriving DecidableEq, Repr

/-- An atom: 3-D coordinates plus the per-atom confidence scalar
(the PDB B-factor column, pLDDT in this pipeline). -/
structure Atom where
  x : ℚ
  y : ℚ
  z : ℚ
  bfactor : ℚ
deriving DecidableEq, Repr

/-- A residue: PDB residue sequence number (`residue.id[1]`), three-letter
residue name (`residue.get_resname()`), and its atoms. -/
structure Residue where
  resSeq : Int
  resName : String
  atoms : List Atom
deriving DecidableEq, Repr

/-- A chain: its one-letter identifier and its ordered residues. -/
structure Chain where
  id : String
  residues : List Residue
deriving DecidableEq, Repr

/-- A parsed structure (model 0 of the PDB file): its chains. -/
structure Structure where
  chains : List Chain
deriving DecidableEq, Repr

/-- Chain lookup, `structure[0][chain_id]` / `chain_id in model`. -/
def findChain (S : Structure) (cid : String) : Option Chain :=
  S.chains.find? (fun c => c.id = cid)

/-- Unfold a chain to its atoms, each paired with its parent residue
(`Selection.unfold_entities(chain, A)` together with `atom.get_parent()`). -/
def chainAtoms (c : Chain) : List (Residue × Atom) :=
  c.residues.flatMap (fun r => r.atoms.map (fun a => (r, a)))

/-- Squared Euclidean distance between two atoms. -/
def distSq (a b : Atom) : ℚ :=
  (a.x - b.x) ^ 2 + (a.y - b.y) ^ 2 + (a.z - b.z) ^ 2

/-- The closed-ball neighbour test of `query_ball_tree(..., cutoff)`:
Euclidean distance at most the cutoff, expressed on squares. -/
def withinCutoff (cutoff : ℚ) (a b : Atom) : Bool :=
  distSq a b ≤ cutoff ^ 2

/-- Modelled from the spec: `THREE_TO_ONE_MAP` is imported from
`src/utils/constants.py`, which is absent from the repository snapshot.
The spec describes it as the standard-amino-acid three-letter → one-letter
map (a "fixed 20-letter alphabet", §4.3, non-membership meaning a
"non-standard amino acid", §4.1), so it is modelled as the canonical
20-entry table. -/
def THREE_TO_ONE_MAP : List (String × Char) :=
  [("ALA", 'A'), ("ARG", 'R'), ("ASN", 'N'), ("ASP", 'D'), ("CYS", 'C'),
   ("GLN", 'Q'), ("GLU", 'E'), ("GLY", 'G'), ("HIS", 'H'), ("ILE", 'I'),
   ("LEU", 'L'), ("LYS", 'K'), ("MET", 'M'), ("PHE", 'F'), ("PRO", 'P'),
   ("SER", 'S'), ("THR", 'T'), ("TRP", 'W'), ("TYR", 'Y'), ("VAL", 'V')]

/-- Python `dict` insertion `m[k] = v`: overwrite in place if the key is
present, else append at the end (dicts preserve insertion order). -/
def dictInsert (m : List (Int × Char)) (k : Int) (v : Char) : List (Int × Char) :=
  if m.any (fun p => p.1 = k) then
    m.map (fun p => if p.1 = k then (k, v) else p)
  else m ++ [(k, v)]

/-- Append to a Python `set` modelled as a duplicate-free list. -/
def setAdd (s : List Int) (k : Int) : List Int :=
  if k ∈ s then s else s ++ [k]

/-- Insertion sort used to model Python `sorted`. -/
def sortInts (l : List Int) : List Int :=
  l.foldl (fun acc k => acc.takeWhile (· ≤ k) ++ k :: acc.dropWhile (· ≤ k)) []

/-- Embeds `hotspot_residues` (`src/utils/interface.py` lines 8-53): check
both chains are present and non-empty, query target atoms within the cutoff
of every binder atom, and collect binder residues that have a standard
residue name and at least one contact into an insertion-ordered dict keyed
by residue sequence number.  Raised exceptions are re-raised by the
function's `except` clause, so they surface to the caller as `Except.error`. -/
def hotspot_residues (S : Structure) (binder_chain target_chain : String)
    (atom_distance_cutoff : ℚ := 4) : Except PyErr (List (Int × Char)) :=
  match findChain S binder_chain with
  | none => .error (.chainNotFound binder_chain)
  | some bc =>
    match findChain S target_chain with
    | none => .error (.chainNotFound target_chain)
    | some tc =>
      let binder_atoms := chainAtoms bc
      if binder_atoms.isEmpty then .error (.emptyChain binder_chain)
      else
        let target_atoms := chainAtoms tc
        if target_atoms.isEmpty then .error (.emptyChain target_chain)
        else
          let pairs := binder_atoms.map (fun ba =>
            target_atoms.filter (fun ta => withinCutoff atom_distance_cutoff ba.2 ta.2))
          .ok <| (binder_atoms.zip pairs).foldl (fun acc p =>
            match THREE_TO_ONE_MAP.lookup p.1.1.resName with
            | some aa => if p.2.isEmpty then acc else dictInsert acc p.1.1.resSeq aa
            | none => acc) []

/-- Result record of `analyze_interface_contacts` (the returned dict). -/
structure ContactResult where
  binder_residues : List (Int × Char)
  target_residues : List (Int × Char)
  target_residue_list : List Int
  binder_residue_list : List Int
  total_interface_residues : Nat
  atom_contacts : Nat
deriving DecidableEq, Repr

/-- One iteration of the contact-collection loop of
`analyze_interface_contacts` (`interface.py` lines 79-94): state is
`(binder_residues, target_residues, target_residue_indices)`; a binder
atom with close target atoms and a standard residue name records its
residue and, per close target atom with a standard residue name, the
target residue and its index. -/
def contactStep (st : List (Int × Char) × List (Int × Char) × List Int)
    (p : (Residue × Atom) × List (Residue × Atom)) :
    List (Int × Char) × List (Int × Char) × List Int :=
  if p.2.isEmpty then st
  else
    match THREE_TO_ONE_MAP.lookup p.1.1.resName with
    | none => st
    | some aa =>
      let br := dictInsert st.1 p.1.1.resSeq aa
      let st2 := p.2.foldl (fun st2 ta =>
        match THREE_TO_ONE_MAP.lookup ta.1.resName with
        | none => st2
        | some taa => (dictInsert st2.1 ta.1.resSeq taa, setAdd st2.2 ta.1.resSeq))
        (st.2.1, st.2.2)
      (br, st2.1, st2.2)

/-- Body of `analyze_interface_contacts` (`src/utils/interface.py` lines
57-107), before the surrounding catch-all: chain lookup raises `KeyError`
when a chain is absent (there is no explicit chain check in this variant);
k-d-tree construction raises on an empty coordinate array; the raw
atom-contact total counts every close pair; the residue loops keep only
standard residue names. -/
def analyzeContactsBody (S : Structure) (binder_chain target_chain : String)
    (atom_distance_cutoff : ℚ) : Except PyErr ContactResult :=
  match findChain S binder_chain with
  | none => .error (.keyError binder_chain)
  | some bc =>
    match findChain S target_chain with
    | none => .error (.keyError target_chain)
    | some tc =>
      let binder_atoms := chainAtoms bc
      let target_atoms := chainAtoms tc
      if binder_atoms.isEmpty then .error (.generic "cKDTree on empty coordinate array")
      else if target_atoms.isEmpty then .error (.generic "cKDTree on empty coordinate array")
      else
        let pairs := binder_atoms.map (fun ba =>
          target_atoms.filter (fun ta => withinCutoff atom_distance_cutoff ba.2 ta.2))
        let atom_contacts := (pairs.map List.length).sum
        let st := (binder_atoms.zip pairs).foldl contactStep ([], [], [])
        .ok { binder_residues := st.1
              target_residues := st.2.1
              target_residue_list := sortInts st.2.2
              binder_residue_list := sortInts (st.1.map Prod.fst)
              total_interface_residues := st.1.length + st.2.1.length
              atom_contacts := atom_contacts }

/-- Embeds `analyze_interface_contacts` (`src/utils/interface.py` lines
55-111): the whole body sits in a `try` whose `except` logs and returns
`None`, so every internal exception is converted to `none`. -/
def analyze_interface_contacts (S : Structure) (binder_chain target_chain : String)
    (atom_distance_cutoff : ℚ := 4) : Option ContactResult :=
  (analyzeContactsBody S binder_chain target_chain atom_distance_cutoff).toOption

/-- The chain preconditions that `hotspot_residues` checks explicitly:
first failing check among binder-chain presence, target-chain presence,
binder-chain non-emptiness, target-chain non-emptiness. -/
def chainCheck (S : Structure) (binder_chain target_chain : String) : Option PyErr :=
  match findChain S binder_chain with
  | none => some (.chainNotFound binder_chain)
  | some bc =>
    match findChain S target_chain with
    | none => some (.chainNotFound target_chain)
    | some tc =>
      if (chainAtoms bc).isEmpty then some (.emptyChain binder_chain)
      else if (chainAtoms tc).isEmpty then some (.emptyChain target_chain)
      else none

/-- Total number of (binder atom, target atom) pairs within the cutoff,
irrespective of residue type — the quantity `atom_contacts` sums. -/
def countContacts (S : Structure) (binder_chain target_chain : String)
    (atom_distance_cutoff : ℚ) : Nat :=
  match findChain S binder_chain, findChain S target_chain with
  | some bc, some tc =>
    ((chainAtoms bc).map (fun ba =>
      ((chainAtoms tc).filter (fun ta => withinCutoff atom_distance_cutoff ba.2 ta.2)).length)).sum
  | _, _ => 0

/-- Filesystem model: the existing paths, each with its file size in bytes
(`os.path.exists` / `os.path.getsize`). -/
abbrev FS := List (String × Nat)

/-- Path existence, `os.path.exists`. -/
def fsExists (fs : FS) (p : String) : Bool :=
  (fs.lookup p).isSome

/-- Write (or overwrite) a file of the given size. -/
def fsWrite (fs : FS) (p : String) (sz : Nat) : FS :=
  (p, sz) :: fs.filter (fun q => q.1 ≠ p)

/-- Embeds `pr_relax` (`src/utils/relax.py` lines 10-66).  The FastRelax
invocation — pose loading, minimization, B-factor copy, `dump_pdb`,
`clean_pdb` — is the external relaxation collaborator; its outcome is the
`engine` argument: `Except.error msg` when any of those calls raises
(`FastRelax` non-convergence included), `.ok none` when the call returns
but the output path still does not exist afterwards, `.ok (some sz)` when
the output file exists afterwards with `sz` bytes.  Returns the reported
success flag, the filesystem after the call, and the number of relaxation
invocations performed (0 on a cache hit).  Note the source checks only
`os.path.exists` after the call; `os.path.getsize` is computed for a log
line and does not influence the returned flag. -/
def pr_relax (fs : FS) (pdb_file relaxed_pdb_path : String)
    (engine : Except String (Option Nat)) : Bool × FS × Nat :=
  if fsExists fs relaxed_pdb_path then (true, fs, 0)
  else
    match engine with
    | .error _ => (false, fs, 1)
    | .ok none => (false, fs, 1)
    | .ok (some sz) => (true, fsWrite fs relaxed_pdb_path sz, 1)

/-- Secondary-structure class buckets of `calc_ss_percentage`. -/
inductive SSClass where
  | helix
  | sheet
  | loopy
deriving DecidableEq, Repr

/-- The two `defaultdict(int)` counters keyed by class. -/
structure SSCounts where
  helix : Nat
  sheet : Nat
  loopCount : Nat
deriving DecidableEq, Repr

/-- Total of a counter, `sum(ss_counts.values())`. -/
def SSCounts.total (c : SSCounts) : Nat :=
  c.helix + c.sheet + c.loopCount

/-- Bump a counter at a class. -/
def SSCounts.bump (c : SSCounts) : SSClass → SSCounts
  | .helix => { c with helix := c.helix + 1 }
  | .sheet => { c with sheet := c.sheet + 1 }
  | .loopy => { c with loopCount := c.loopCount + 1 }

/-- Loop state of `calc_ss_percentage`: the global and interface counters
and the two pLDDT accumulator lists. -/
structure SSState where
  counts : SSCounts
  icounts : SSCounts
  plddts_interface : List ℚ
  plddts_ss : List ℚ
deriving DecidableEq, Repr

/-- DSSP bucket collapse (`dssp.py` lines 65-69): H/G/I → helix, E → sheet,
everything else → loop. -/
def ssClassOf (ss : Char) : SSClass :=
  if ss = 'H' ∨ ss = 'G' ∨ ss = 'I' then .helix
  else if ss = 'E' then .sheet
  else .loopy

/-- Mean B-factor of a residue, `sum(atom.bfactor for atom in residue) /
len(residue)`; raises `ZeroDivisionError` on an atomless residue, which the
per-residue `except` swallows (modelled at the two call sites). -/
def residuePlddt (r : Residue) : ℚ :=
  (r.atoms.map Atom.bfactor).sum / r.atoms.length

/-- One iteration of the residue loop of `calc_ss_percentage` (`dssp.py`
lines 60-83).  Residues absent from the DSSP table are skipped.  For a
non-loop residue the global bump happens before the `plddts_ss` mean; if
that mean raises (atomless residue) the whole rest of the iteration —
including the interface branch — is skipped by the per-residue `except`.
In the interface branch the bump again precedes the mean, so a raise there
keeps the bump but drops the append. -/
def ssStep (dsspTable : List (Int × Char)) (interacting : List Int)
    (st : SSState) (r : Residue) : SSState :=
  match dsspTable.lookup r.resSeq with
  | none => st
  | some ss =>
    let cls := ssClassOf ss
    let st1 := { st with counts := st.counts.bump cls }
    let ifacePart (st : SSState) : SSState :=
      if r.resSeq ∈ interacting then
        let st := { st with icounts := st.icounts.bump cls }
        if r.atoms.isEmpty then st
        else { st with plddts_interface := st.plddts_interface ++ [residuePlddt r] }
      else st
    if cls ≠ .loopy then
      if r.atoms.isEmpty then st1
      else ifacePart { st1 with plddts_ss := st1.plddts_ss ++ [residuePlddt r] }
    else ifacePart st1

/-- The whole residue loop: fold `ssStep` over the binder chain. -/
def ssAggregate (residues : List Residue) (dsspTable : List (Int × Char))
    (interacting : List Int) : SSState :=
  residues.foldl (ssStep dsspTable interacting)
    { counts := ⟨0, 0, 0⟩, icounts := ⟨0, 0, 0⟩
      plddts_interface := [], plddts_ss := [] }

/-- Python `round(q, 2)` modelled as exact nearest-integer rounding of
`q * 100` scaled back (the float tie-breaking rule is irrelevant to every
stated tolerance). -/
def roundTwo (q : ℚ) : ℚ :=
  ((round (q * 100) : ℤ) : ℚ) / 100

/-- The eight-component result tuple of `calc_ss_percentage`. -/
structure SSOut where
  helix_pct : ℚ
  sheet_pct : ℚ
  loop_pct : ℚ
  i_helix_pct : ℚ
  i_sheet_pct : ℚ
  i_loop_pct : ℚ
  i_plddt : ℚ
  ss_plddt : ℚ
deriving DecidableEq, Repr

/-- External-outcome environment of `calc_ss_percentage`: whether the PDB
file and the DSSP executable exist, and the outcome of running the DSSP
classifier (on success, the binder-chain slice of its table: residue
sequence number → secondary-structure code). -/
structure DsspEnv where
  pdbExists : Bool
  dsspExists : Bool
  dssp : Except String (List (Int × Char))
deriving Repr

/-- Embeds `calc_ss_percentage` (`src/utils/dssp.py` lines 8-108): file
checks, chain check, DSSP run, hotspot detection (exceptions re-raised),
the residue loop, the fatal zero-residue check, and the rounded percentage
computation with the guard ternaries of the source. -/
def calc_ss_percentage (S : Structure) (env : DsspEnv)
    (binder_chain target_chain : String) (atom_distance_cutoff : ℚ := 4) :
    Except PyErr SSOut :=
  if ¬ env.pdbExists then .error (.fileNotFound "PDB file not found")
  else if ¬ env.dsspExists then .error (.fileNotFound "DSSP executable not found")
  else
    match findChain S binder_chain with
    | none => .error (.chainNotFound binder_chain)
    | some chain =>
      match env.dssp with
      | .error e => .error (.generic e)
      | .ok dsspTable =>
        match hotspot_residues S binder_chain target_chain atom_distance_cutoff with
        | .error e => .error e
        | .ok hs =>
          let interacting := hs.map Prod.fst
          let st := ssAggregate chain.residues dsspTable interacting
          let total := st.counts.total
          let itotal := st.icounts.total
          if total = 0 then .error (.generic "No residues were processed successfully")
          else
            .ok { helix_pct := if 0 < total then roundTwo ((st.counts.helix : ℚ) / total * 100) else 0
                  sheet_pct := if 0 < total then roundTwo ((st.counts.sheet : ℚ) / total * 100) else 0
                  loop_pct := if 0 < total then
                      roundTwo (((total : ℚ) - st.counts.helix - st.counts.sheet) / total * 100) else 0
                  i_helix_pct := if 0 < itotal then roundTwo ((st.icounts.helix : ℚ) / itotal * 100) else 0
                  i_sheet_pct := if 0 < itotal then roundTwo ((st.icounts.sheet : ℚ) / itotal * 100) else 0
                  i_loop_pct := if 0 < itotal then
                      roundTwo (((itotal : ℚ) - st.icounts.helix - st.icounts.sheet) / itotal * 100) else 0
                  i_plddt := if ¬ st.plddts_interface.isEmpty then
                      roundTwo (st.plddts_interface.sum / st.plddts_interface.length / 100) else 0
                  ss_plddt := if ¬ st.plddts_ss.isEmpty then
                      roundTwo (st.plddts_ss.sum / st.plddts_ss.length / 100) else 0 }

/-- The named numeric features of `score_interface` (`scores.py` lines
180-195).  `interface_dG_SASA_ratio_pct` carries the source key
`interface_dG_SASA_ratio`, which the source stores already multiplied
by 100. -/
structure ScoreRecord where
  binder_score : ℚ
  surface_hydrophobicity : ℚ
  interface_sc : ℚ
  interface_packstat : ℚ
  interface_dG : ℚ
  interface_dSASA : ℚ
  interface_dG_SASA_ratio_pct : ℚ
  interface_fraction : ℚ
  interface_hydrophobicity : ℚ
  interface_nres : Nat
  interface_interface_hbonds : ℚ
  interface_hbond_percentage : Option ℚ
  interface_delta_unsat_hbonds : ℚ
  interface_delta_unsat_hbonds_percentage : Option ℚ
deriving DecidableEq, Repr

/-- Outcomes of the PyRosetta calls made by `score_interface`, one field
per external call site, in source order.  The six `interfacescore` /
`iam` statistic retrievals (lines 72-112) and the `BuriedUnsatHbonds`
filter (lines 114-121) sit inside individual `try`/`except` blocks in the
source; `load` (line 19), `iamApply` (line 39), `binder_score_calc`
(line 139), `binder_sasa_calc` (line 146) are unguarded; `splitChains`
(lines 152-158) is guarded but its handler re-raises.  `surface` gives,
per residue of the split-out binder pose, whether the `LayerSelector`
picked it as surface and whether it `is_apolar()` or is PHE/TRP/TYR. -/
structure RoEnv where
  load : Except String Unit
  iamApply : Except String Unit
  sc_value : Except String ℚ
  interface_hbonds : Except String ℚ
  interface_dG : Except String ℚ
  interface_delta_sasa : Except String ℚ
  interface_packstat : Except String ℚ
  dG_dSASA_raw : Except String ℚ
  buns : Except String ℚ
  binder_score_calc : Except String ℚ
  binder_sasa_calc : Except String ℚ
  splitChains : Except String Unit
  surface : List (Bool × Bool)

/-- Python `interface_AA[aa_type] += 1` on the zero-initialized 20-key
dict: raises `KeyError` if the key is not one of the 20 letters. -/
def bumpAA (m : List (Char × Nat)) (c : Char) : Except PyErr (List (Char × Nat)) :=
  if m.any (fun p => p.1 = c) then
    .ok (m.map (fun p => if p.1 = c then (p.1, p.2 + 1) else p))
  else .error (.keyError c.toString)

/-- The zero-initialized composition dict `{aa: 0 for aa in
'ACDEFGHIKLMNPQRSTVWY'}`. -/
def zeroAA : List (Char × Nat) :=
  "ACDEFGHIKLMNPQRSTVWY".toList.map (fun c => (c, 0))

/-- One iteration of the interface-residue loop of `score_interface`
(lines 51-54): bump the composition dict at the residue's letter and
append the `binder_chain ++ residue number` id string. -/
def aaStep (binder_chain : String) (acc : List (Char × Nat) × List String)
    (p : Int × Char) : Except PyErr (List (Char × Nat) × List String) :=
  match bumpAA acc.1 p.2 with
  | .error e => .error e
  | .ok m => .ok (m, acc.2 ++ [binder_chain ++ toString p.1])

/-- The whole interface-residue loop of `score_interface`. -/
def aaFold (binder_chain : String) (items : List (Int × Char)) :
    Except PyErr (List (Char × Nat) × List String) :=
  items.foldlM (aaStep binder_chain) (zeroAA, [])

/-- Embeds `score_interface` (`src/utils/scores.py` lines 16-198).
Return value mirrors the source: `.ok none` is the `(None, None, None)`
early return on pose-load failure; `.ok (some (record, composition dict,
comma-joined residue id string))` is the normal return; `.error` is any
exception the function does not catch (its body has no outer
`try`/`except`), which propagates to the caller. -/
def score_interface (S : Structure) (env : RoEnv)
    (binder_chain target_chain : String) :
    Except PyErr (Option (ScoreRecord × List (Char × Nat) × String)) :=
  match env.load with
  | .error _ => .ok none
  | .ok _ =>
    match env.iamApply with
    | .error e => .error (.generic e)
    | .ok _ =>
      match hotspot_residues S binder_chain target_chain with
      | .error e => .error e
      | .ok interface_residues_set =>
        match aaFold binder_chain interface_residues_set with
        | .error e => .error e
        | .ok (interface_AA, ids) =>
          let interface_nres := ids.length
          let interface_residues_pdb_ids_str := String.intercalate "," ids
          let hydrophobic_count :=
            ("ACFILMPVWY".toList.map (fun aa => (interface_AA.lookup aa).getD 0)).sum
          let interface_hydrophobicity : ℚ :=
            if interface_nres ≠ 0 then (hydrophobic_count : ℚ) / interface_nres * 100 else 0
          let interface_sc := env.sc_value.toOption.getD 0
          let interface_interface_hbonds := env.interface_hbonds.toOption.getD 0
          let interface_dG := env.interface_dG.toOption.getD 0
          let interface_dSASA := env.interface_delta_sasa.toOption.getD 0
          let interface_packstat := env.interface_packstat.toOption.getD 0
          let interface_dG_SASA_ratio_pct := (env.dG_dSASA_raw.toOption.map (· * 100)).getD 0
          let interface_delta_unsat_hbonds := env.buns.toOption.getD 0
          let interface_hbond_percentage : Option ℚ :=
            if interface_nres ≠ 0 then some (interface_interface_hbonds / interface_nres * 100) else none
          let interface_bunsch_percentage : Option ℚ :=
            if interface_nres ≠ 0 then some (interface_delta_unsat_hbonds / interface_nres * 100) else none
          match env.binder_score_calc with
          | .error e => .error (.generic e)
          | .ok binder_score =>
            match env.binder_sasa_calc with
            | .error e => .error (.generic e)
            | .ok binder_sasa =>
              let interface_binder_fraction : ℚ :=
                if 0 < binder_sasa then interface_dSASA / binder_sasa * 100 else 0
              match env.splitChains with
              | .error e => .error (.generic e)
              | .ok _ =>
                let exp_apol_count := (env.surface.filter (fun p => p.1 && p.2)).length
                let total_count := (env.surface.filter (fun p => p.1)).length
                let surface_hydrophobicity : ℚ :=
                  if 0 < total_count then (exp_apol_count : ℚ) / total_count else 0
                .ok (some
                  ({ binder_score := binder_score
                     surface_hydrophobicity := surface_hydrophobicity
                     interface_sc := interface_sc
                     interface_packstat := interface_packstat
                     interface_dG := interface_dG
                     interface_dSASA := interface_dSASA
                     interface_dG_SASA_ratio_pct := interface_dG_SASA_ratio_pct
                     interface_fraction := interface_binder_fraction
                     interface_hydrophobicity := interface_hydrophobicity
                     interface_nres := interface_nres
                     interface_interface_hbonds := interface_interface_hbonds
                     interface_hbond_percentage := interface_hbond_percentage
                     interface_delta_unsat_hbonds := interface_delta_unsat_hbonds
                     interface_delta_unsat_hbonds_percentage := interface_bunsch_percentage },
                   interface_AA, interface_residues_pdb_ids_str))

/-- A submission row of the input table: `id` and `sequence` columns. -/
structure Submission where
  id : String
  sequence : String
deriving DecidableEq, Repr

/-- Normal return value of the interface-scoring stage as the batch code
sees it: a 3-tuple, either populated or the `(None, None, None)` triple. -/
abbrev ScoreRet := Option (ScoreRecord × List (Char × Nat) × String)

/-- Outcomes of the four stage calls made by `process_submission` for one
submission: `relax` is the `pr_relax` block (`.ok b` = returned flag `b`,
`.error` = an exception inside the block, e.g. from `os.makedirs`);
`dssp` is `calc_ss_percentage` (which in fact never returns `None`, but
the source checks for it, so the `Option` is kept); `score` is
`score_interface` (`.ok none` = the `(None, None, None)` return); and
`contact` is `analyze_interface_contacts` (`.ok none` = its `None`
return on an internal error). -/
structure StageEnv where
  relax : Except String Bool
  dssp : Except String (Option SSOut)
  score : Except String ScoreRet
  contact : Except String (Option ContactResult)

/-- The 6-tuple `(submission_id, submission_sequence, dssp_results,
interface_results, contact_results, error_msg)` that `process_submission`
returns on every path. -/
structure SubResult where
  id : String
  sequence : String
  dssp_results : Option SSOut
  interface_results : Option ScoreRet
  contact_results : Option ContactResult
  error : Option String
deriving Repr

/-- Failure tuple `(id, sequence, None, None, None, error_msg)`. -/
def failResult (sub : Submission) (msg : String) : SubResult :=
  { id := sub.id, sequence := sub.sequence, dssp_results := none
    interface_results := none, contact_results := none, error := some msg }

/-- Embeds `process_submission` (`src/processing/batch.py` lines 36-106):
look the structure file up by id, then run the four stages, each inside a
`try`/`except` that turns any failure into the failure tuple with the
verbatim message.  The `if not interface_results` check of the source never
fires because `score_interface` always returns a (truthy) 3-tuple — the
falsy-`None` case can only reach the result-collection loop. -/
def process_submission (sub : Submission) (pdb_files : List (String × String))
    (env : StageEnv) : SubResult :=
  match pdb_files.lookup sub.id with
  | none => failResult sub ("No PDB file found for submission " ++ sub.id)
  | some _ =>
    match env.relax with
    | .error e => failResult sub ("Structure relaxation failed for " ++ sub.id ++ ": " ++ e)
    | .ok false =>
      failResult sub ("Structure relaxation failed for " ++ sub.id ++ ": Structure relaxation failed")
    | .ok true =>
      match env.dssp with
      | .error e => failResult sub ("DSSP calculation failed for " ++ sub.id ++ ": " ++ e)
      | .ok none =>
        failResult sub ("DSSP calculation failed for " ++ sub.id ++ ": DSSP calculation returned None")
      | .ok (some d) =>
        match env.score with
        | .error e => failResult sub ("Interface scoring failed for " ++ sub.id ++ ": " ++ e)
        | .ok ir =>
          match env.contact with
          | .error e => failResult sub ("Contact analysis failed for " ++ sub.id ++ ": " ++ e)
          | .ok none =>
            failResult sub ("Contact analysis failed for " ++ sub.id ++ ": Contact analysis returned None")
          | .ok (some c) =>
            { id := sub.id, sequence := sub.sequence, dssp_results := some d
              interface_results := some ir, contact_results := some c, error := none }

/-- A row of the aggregated batch result: either a failure row
(`id`, `error`, `status = failed`; the numeric columns are null-filled by
the schema normalization) or a success row (`status = success`) holding the
merged stage outputs.  The `str(...)` serialization of the composition
dict is a formatting concern and the dict itself is kept. -/
inductive Row where
  | failedRow (id : String) (error : String)
  | successRow (id : String) (d : SSOut) (metrics : ScoreRecord)
      (aa_counts : List (Char × Nat)) (interface_residues : String) (c : ContactResult)
deriving Repr

/-- The `id` column of a row. -/
def Row.rowId : Row → String
  | .failedRow i _ => i
  | .successRow i _ _ _ _ _ => i

/-- CPython's message for `{**None}`; its exact text is interpreter
detail and load-bearing nowhere. -/
def typeErrorMsg : String := "argument of type NoneType is not a mapping"

/-- One iteration of the result-collection loop (`batch.py` lines 167-221):
an error result becomes a failure row; a `None` stage field becomes the
Missing-results failure row (`all([...])` is falsy exactly on a `None`
member, since the non-`None` stage values are non-empty tuples/dicts); the
`(None, None, None)` scoring triple makes `**interface_metrics` raise
`TypeError`, which the loop's own `except` turns into a failure row (the
id is bound by then); otherwise a success row is built. -/
def processResult (r : SubResult) : Row :=
  match r.error with
  | some e => .failedRow r.id e
  | none =>
    match r.dssp_results, r.interface_results, r.contact_results with
    | some d, some ir, some c =>
      match ir with
      | none => .failedRow r.id typeErrorMsg
      | some (metrics, aa, ids) => .successRow r.id d metrics aa ids c
    | _, _, _ => .failedRow r.id ("Missing results for submission " ++ r.id)

/-- The whole result-collection loop: one row appended per collected
result. -/
def processResults (results : List SubResult) : List Row :=
  results.map processResult

/-- Directory model for `get_pdb_files`: each structure directory path
mapped to `none` when `os.path.exists` fails, else to its `os.listdir`
filenames. -/
abbrev DirListing := List (String × Option (List String))

/-- Python `filename.split treatment`: everything before the first dot
(`filename.split and index 0`; the source comment says underscore but the
code splits on a dot). -/
def idOfFilename (s : String) : String :=
  (s.splitOn ".").headD s

/-- Python `dict` insertion for string keys (last write wins, insertion
order kept). -/
def strDictInsert (m : List (String × String)) (k v : String) :
    List (String × String) :=
  if m.any (fun p => p.1 = k) then m.map (fun p => if p.1 = k then (k, v) else p)
  else m ++ [(k, v)]

/-- Embeds `get_pdb_files` (`src/processing/parse.py` lines 5-23): walk the
directories in order; a missing directory is logged with a warning and
skipped (`continue`) — it is not an error; every listed filename maps its
derived id to the joined path, later writes overwriting earlier ones. -/
def get_pdb_files (structure_dirs : DirListing) : List (String × String) :=
  structure_dirs.foldl (fun acc d =>
    match d.2 with
    | none => acc
    | some files =>
      files.foldl (fun acc f => strDictInsert acc (idOfFilename f) (d.1 ++ "/" ++ f)) acc) []

/-- External world of one `process_submissions_batch` call: the outcome of
reading the input CSV (volume-adjusted path), the structure-directory
listing (volume-adjusted paths), and the per-submission stage outcomes
realized in the worker pool. -/
structure BatchWorld where
  csvRead : Except String (List Submission)
  dirs : DirListing
  envOf : Submission → StageEnv

/-- Return value of `process_submissions_batch`: `failed` is `return
False` (unreadable input CSV via the outer `except`, or the empty-slice
check), `emptyRows` is `return []`, `rows` is the record list of the
normalized DataFrame. -/
inductive BatchOut where
  | failed
  | emptyRows
  | rows (rs : List Row)

/-- Embeds `process_submissions_batch` (`src/processing/batch.py` lines
108-241): read the CSV (any exception reaches the outer handler → `return
False`), slice `[start_idx, end_idx)`, fail on an empty slice, build the
pdb-file lookup, run `process_submission` per row over the pool, collect,
and convert to rows.  The pool completes results in nondeterministic
order; this definition fixes submission order, and the batch-level
row-accounting theorem quantifies over an arbitrary permutation instead. -/
def process_submissions_batch (world : BatchWorld) (start_idx end_idx : Nat) :
    BatchOut :=
  match world.csvRead with
  | .error _ => .failed
  | .ok table =>
    let submissions := (table.drop start_idx).take (end_idx - start_idx)
    if submissions.isEmpty then .failed
    else
      let pdb_files := get_pdb_files world.dirs
      let results := submissions.map (fun s => process_submission s pdb_files (world.envOf s))
      let all_results := processResults results
      if all_results.isEmpty then .emptyRows else .rows all_results

/-! Helper lemmas. -/

lemma fsExists_fsWrite (fs : FS) (p : String) (sz : Nat) :
    fsExists (fsWrite fs p sz) p = true := by
  simp [fsExists, fsWrite, List.lookup]

lemma abs_roundTwo_sub (q : ℚ) : |roundTwo q - q| ≤ 1 / 200 := by
  unfold roundTwo
  have h1 : ((round (q * 100) : ℤ) : ℚ) / 100 - q
      = -((q * 100 - ((round (q * 100) : ℤ) : ℚ)) / 100) := by ring
  rw [h1, abs_neg, abs_div, abs_of_pos (by norm_num : (0 : ℚ) < 100)]
  have h2 : |q * 100 - ((round (q * 100) : ℤ) : ℚ)| ≤ 1 / 2 := abs_sub_round (q * 100)
  linarith

lemma roundTwo_sum_near (a b c : ℚ) (h : a + b + c = 100) :
    |roundTwo a + roundTwo b + roundTwo c - 100| ≤ 1 / 10 := by
  have ea := abs_roundTwo_sub a
  have eb := abs_roundTwo_sub b
  have ec := abs_roundTwo_sub c
  have hsum : roundTwo a + roundTwo b + roundTwo c - 100
      = (roundTwo a - a) + (roundTwo b - b) + (roundTwo c - c) := by
    rw [← h]; ring
  rw [hsum]
  calc |(roundTwo a - a) + (roundTwo b - b) + (roundTwo c - c)|
      ≤ |roundTwo a - a| + |roundTwo b - b| + |roundTwo c - c| := abs_add_three _ _ _
    _ ≤ 1 / 10 := by linarith

lemma pct_sum_eq (hc sc : Nat) (T : ℚ) (hT : T ≠ 0) :
    (hc : ℚ) / T * 100 + (sc : ℚ) / T * 100 + (T - hc - sc) / T * 100 = 100 := by
  field_simp
  ring

/-! C6 — relaxation failure condition. -/

/-- C6 (amended): `pr_relax` reports failure exactly when the cache path is
absent and either the relaxation call raises or the output file does not
exist after the call.  The source never tests the size: `os.path.getsize`
feeds only a log line, so an existing but empty output file is reported as
success (see the counterexample).  `engine.toOption.getD none = none`
states that the relaxation call raised or left no output file. -/
theorem pr_relax_failure_iff (fs : FS) (pdb_file relaxed_pdb_path : String)
    (engine : Except String (Option Nat)) :
    (pr_relax fs pdb_file relaxed_pdb_path engine).1 = false ↔
      (fsExists fs relaxed_pdb_path = false ∧ engine.toOption.getD none = none) := by
  unfold pr_relax
  by_cases hc : fsExists fs relaxed_pdb_path = true
  · simp [hc]
  · cases engine with
    | error e => simp_all [Except.toOption]
    | ok o => cases o <;> simp_all [Except.toOption]

/-- C6 counterexample: on an empty filesystem, a relaxation call whose
output file exists afterwards with size 0 (an existing but **empty**
output) makes `pr_relax` return `True` and leave the empty cache file in
place — the claim requires this case to be a failure. -/
theorem pr_relax_empty_output_reports_success :
    pr_relax [] "input.pdb" "relaxed.pdb" (.ok (some 0))
      = (true, [("relaxed.pdb", 0)], 1) ∧
    (pr_relax [] "input.pdb" "relaxed.pdb" (.ok (some 0))).2.1.lookup "relaxed.pdb"
      = some 0 := by
  exact ⟨rfl, rfl⟩

/-! C8 — relaxation idempotence / caching. -/

/-- C8: if a `pr_relax` call on `relaxed_pdb_path` reports success, then the
cache path exists afterwards, and a second call with the same input and
cache path — whatever its relaxation collaborator would do — returns success
immediately, leaves the filesystem unchanged, and performs 0 relaxation
invocations.  The cached file path is the `relaxed_pdb_path` argument
itself, hence identical across the two calls. -/
theorem pr_relax_idempotent (fs : FS) (pdb_file relaxed_pdb_path : String)
    (engine engine2 : Except String (Option Nat)) (fs2 : FS) (n : Nat)
    (h : pr_relax fs pdb_file relaxed_pdb_path engine = (true, fs2, n)) :
    fsExists fs2 relaxed_pdb_path = true ∧
    pr_relax fs2 pdb_file relaxed_pdb_path engine2 = (true, fs2, 0) := by
  unfold pr_relax at h ⊢
  by_cases hc : fsExists fs relaxed_pdb_path = true
  · rw [if_pos hc] at h
    have h3 : fs = fs2 := by simpa using congrArg (fun p => p.2.1) h
    subst h3
    simp [hc]
  · rw [if_neg hc] at h
    cases engine with
    | error e => exact absurd (congrArg Prod.fst h) (by simp)
    | ok o =>
      cases o with
      | none => exact absurd (congrArg Prod.fst h) (by simp)
      | some sz =>
        have hfs2 : fsWrite fs relaxed_pdb_path sz = fs2 := by
          simpa using congrArg (fun p => p.2.1) h
        subst hfs2
        simp [fsExists_fsWrite]

/-- C8 witness: a concrete first call on an empty filesystem writes a
5-byte cache file and reports success; the second call — even with a
different collaborator outcome — returns success with 0 invocations and
the same filesystem. -/
theorem pr_relax_idempotent_witness :
    fsExists [("relaxed.pdb", 5)] "relaxed.pdb" = true ∧
    pr_relax [("relaxed.pdb", 5)] "input.pdb" "relaxed.pdb" (.ok (some 7))
      = (true, [("relaxed.pdb", 5)], 0) :=
  pr_relax_idempotent [] "input.pdb" "relaxed.pdb" (.ok (some 5)) (.ok (some 7))
    [("relaxed.pdb", 5)] 1 rfl

/-! C2 — per-submission pipeline totality. -/

lemma process_submission_id (sub : Submission) (pdb_files : List (String × String))
    (env : StageEnv) : (process_submission sub pdb_files env).id = sub.id := by
  unfold process_submission
  cases pdb_files.lookup sub.id with
  | none => rfl
  | some p =>
    cases env.relax with
    | error e => rfl
    | ok b =>
      cases b with
      | false => rfl
      | true =>
        cases env.dssp with
        | error e => rfl
        | ok od =>
          cases od with
          | none => rfl
          | some d =>
            cases env.score with
            | error e => rfl
            | ok ir =>
              cases env.contact with
              | error e => rfl
              | ok oc => cases oc <;> rfl

/-- C2: `process_submission` is a total function of the submission and the
stage outcomes: on every path it returns the 6-tuple, with the input id
and sequence, with `error = None` exactly when the structure file was
found and all stage calls returned usable values, and with the three
stage-result fields populated exactly in that case (they are `None`
whenever `error` is set).  Exception propagation out of the component is
impossible: every stage outcome — including a raised exception, modelled
as the `.error` branches of `StageEnv` — is mapped to a returned tuple. -/
theorem process_submission_total (sub : Submission)
    (pdb_files : List (String × String)) (env : StageEnv) :
    (process_submission sub pdb_files env).id = sub.id ∧
    (process_submission sub pdb_files env).sequence = sub.sequence ∧
    ((process_submission sub pdb_files env).error = none ↔
      ((pdb_files.lookup sub.id).isSome = true ∧ env.relax = .ok true ∧
       (∃ d, env.dssp = .ok (some d)) ∧ (∃ ir, env.score = .ok ir) ∧
       (∃ c, env.contact = .ok (some c)))) ∧
    ((process_submission sub pdb_files env).error = none ↔
      ((process_submission sub pdb_files env).dssp_results.isSome = true ∧
       (process_submission sub pdb_files env).interface_results.isSome = true ∧
       (process_submission sub pdb_files env).contact_results.isSome = true)) := by
  unfold process_submission
  cases pdb_files.lookup sub.id with
  | none => simp [failResult]
  | some p =>
    cases env.relax with
    | error e => simp [failResult]
    | ok b =>
      cases b with
      | false => simp [failResult]
      | true =>
        cases env.dssp with
        | error e => simp [failResult]
        | ok od =>
          cases od with
          | none => simp [failResult]
          | some d =>
            cases env.score with
            | error e => simp [failResult]
            | ok ir =>
              cases env.contact with
              | error e => simp [failResult]
              | ok oc => cases oc <;> simp [failResult]

/-! C1 — exactly one output row per submission. -/

lemma processResult_rowId (r : SubResult) : (processResult r).rowId = r.id := by
  unfold processResult
  cases r.error with
  | some e => rfl
  | none =>
    cases r.dssp_results with
    | none => cases r.interface_results <;> cases r.contact_results <;> rfl
    | some d =>
      cases r.interface_results with
      | none => cases r.contact_results <;> rfl
      | some ir =>
        cases r.contact_results with
        | none => rfl
        | some c =>
          cases ir with
          | none => rfl
          | some tr => obtain ⟨m, aa, ids⟩ := tr; rfl

/-- C1: if the collected result list is any permutation (the pool completes
in arbitrary order) of one `process_submission` outcome per submission of
the batch slice, then the result-collection loop emits exactly one row per
result — so the output row count equals the input row count, and the
multiset of output row ids is exactly the multiset of submission ids: no
submission is dropped and none is duplicated.  Every emitted row is either
a success row or a failure row carrying an error message
(`Row.failedRow` / `Row.successRow` are the only constructors). -/
theorem batch_rows_one_per_submission (subs : List Submission)
    (pdb_files : List (String × String)) (envOf : Submission → StageEnv)
    (results : List SubResult)
    (hperm : results.Perm
      (subs.map (fun s => process_submission s pdb_files (envOf s)))) :
    (processResults results).length = subs.length ∧
    ((processResults results).map Row.rowId).Perm (subs.map Submission.id) := by
  constructor
  · simp [processResults, hperm.length_eq]
  · have h1 : (processResults results).map Row.rowId = results.map (fun r => r.id) := by
      simp [processResults, List.map_map, Function.comp, processResult_rowId]
    rw [h1]
    have h2 := hperm.map (fun r : SubResult => r.id)
    rw [List.map_map] at h2
    have h3 : subs.map ((fun r : SubResult => r.id) ∘
          fun s => process_submission s pdb_files (envOf s))
        = subs.map Submission.id :=
      List.map_congr_left (fun s _ => process_submission_id s pdb_files (envOf s))
    rw [h3] at h2
    exact h2

/-- Concrete two-submission batch used by witnesses: submission `s1` has a
structure file, `s2` has none; the relaxation stage raises for `s1`. -/
def subW1 : Submission := { id := "s1", sequence := "AAAA" }

/-- Second concrete submission. -/
def subW2 : Submission := { id := "s2", sequence := "CCCC" }

/-- Structure-file lookup holding a file for `s1` only. -/
def pdbFilesW : List (String × String) := [("s1", "structures/s1.pdb")]

/-- Stage environment whose relaxation stage raises. -/
def envW : StageEnv :=
  { relax := .error "pose_from_pdb failed", dssp := .ok none
    score := .ok none, contact := .ok none }

/-- Collected results of the two-submission batch, in reversed (pool
completion) order. -/
def resultsW : List SubResult :=
  [process_submission subW2 pdbFilesW envW, process_submission subW1 pdbFilesW envW]

/-- C1 witness: the two-submission batch collected in reversed order still
yields exactly two rows whose ids are a permutation of the submission
ids. -/
theorem batch_rows_one_per_submission_witness :
    (processResults resultsW).length = [subW1, subW2].length ∧
    ((processResults resultsW).map Row.rowId).Perm
      ([subW1, subW2].map Submission.id) :=
  batch_rows_one_per_submission [subW1, subW2] pdbFilesW (fun _ => envW) resultsW
    (List.Perm.swap _ _ _)

/-! C3 — batch precondition validation. -/

/-- C3 (amended): `process_submissions_batch` aborts with a failure return
exactly when the input table cannot be read or the selected row slice is
empty; the existence of the structure directories is **not** validated —
`get_pdb_files` logs a warning and skips a missing directory — so whenever
the CSV is readable and the slice non-empty the batch proceeds to process
every submission of the slice (affected submissions surface later as
per-submission failure rows, not as a batch abort). -/
theorem batch_precondition_aborts (world : BatchWorld) (start_idx end_idx : Nat) :
    (process_submissions_batch world start_idx end_idx = .failed ↔
      (match world.csvRead with
       | .error _ => True
       | .ok table => (table.drop start_idx).take (end_idx - start_idx) = [])) ∧
    (∀ table, world.csvRead = .ok table →
      ((table.drop start_idx).take (end_idx - start_idx)).isEmpty = false →
      process_submissions_batch world start_idx end_idx =
        .rows (processResults
          (((table.drop start_idx).take (end_idx - start_idx)).map
            (fun s => process_submission s (get_pdb_files world.dirs) (world.envOf s))))) := by
  constructor
  · unfold process_submissions_batch
    cases world.csvRead with
    | error e => simp
    | ok table =>
      dsimp only
      by_cases hs : ((table.drop start_idx).take (end_idx - start_idx)).isEmpty = true
      · simp [hs, List.isEmpty_iff.mp hs]
      · rw [if_neg hs]
        have hne : (table.drop start_idx).take (end_idx - start_idx) ≠ [] := by
          intro hnil
          exact hs (by simp [hnil])
        by_cases hr : (processResults
            (((table.drop start_idx).take (end_idx - start_idx)).map
              (fun s => process_submission s (get_pdb_files world.dirs)
                (world.envOf s)))).isEmpty = true
        · exfalso
          apply hne
          have := List.isEmpty_iff.mp hr
          simpa [processResults] using this
        · rw [if_neg hr]
          constructor
          · intro hcontra
            exact absurd hcontra (by simp)
          · intro hcontra
            exact absurd hcontra hne
  · intro table htable hne
    unfold process_submissions_batch
    rw [htable]
    dsimp only
    rw [if_neg (by simp [hne])]
    have hr : ¬ (processResults
        (((table.drop start_idx).take (end_idx - start_idx)).map
          (fun s => process_submission s (get_pdb_files world.dirs)
            (world.envOf s)))).isEmpty = true := by
      intro h
      rw [List.isEmpty_iff] at h
      have h2 : (table.drop start_idx).take (end_idx - start_idx) = [] := by
        have h3 := congrArg List.length h
        rw [processResults, List.length_map, List.length_map] at h3
        exact List.length_eq_zero.mp (by simpa using h3)
      rw [h2] at hne
      simp at hne
    rw [if_neg hr]

/-- Batch world whose only structure directory does not exist on disk
(`os.path.exists` false), while the input CSV is readable with one
submission. -/
def worldMissingDir : BatchWorld :=
  { csvRead := .ok [subW1]
    dirs := [("competition_vol/structures", none)]
    envOf := fun _ => envW }

/-- C3 counterexample: with a missing structure directory the batch call
does not abort — the claim requires it to fail before processing any
submission, but the orchestrator proceeds, processes the submission, and
returns its "No PDB file found" failure row. -/
theorem batch_missing_dir_not_aborted :
    process_submissions_batch worldMissingDir 0 1 =
      .rows [Row.failedRow "s1" "No PDB file found for submission s1"] ∧
    process_submissions_batch worldMissingDir 0 1 ≠ .failed := by
  have h1 : process_submissions_batch worldMissingDir 0 1 =
      .rows [Row.failedRow "s1" "No PDB file found for submission s1"] := rfl
  refine ⟨h1, ?_⟩
  intro h
  rw [h1] at h
  exact BatchOut.noConfusion h

/-- C3 witness: the amended theorem applied to the missing-directory world:
the batch call is not `failed` there (the slice is non-empty and the CSV
readable), so the iff rules out the abort, and the second conjunct gives
the processed rows. -/
theorem batch_precondition_aborts_witness :
    process_submissions_batch worldMissingDir 0 1 =
      .rows (processResults ((([subW1].drop 0).take (1 - 0)).map
        (fun s => process_submission s (get_pdb_files worldMissingDir.dirs)
          (worldMissingDir.envOf s)))) :=
  (batch_precondition_aborts worldMissingDir 0 1).2 [subW1] rfl rfl

/-! C7 — interface-detector failure modes. -/

/-- C7 (amended): the chain preconditions behave differently in the two
variants.  `hotspot_residues` checks them explicitly and raises the
chain-not-found / empty-chain error the claim names (and succeeds whenever
the checks pass); `analyze_interface_contacts` performs no such check —
the same missing-chain or empty-chain condition makes its body raise
internally (a `KeyError` / a k-d-tree construction error), which its
catch-all handler converts to a `None` return, so the caller never sees a
`ChainNotFoundError` or `EmptyChainError` from this variant: it returns
`None` exactly when a chain precondition is violated. -/
theorem interface_chain_error_modes (S : Structure)
    (binder_chain target_chain : String) (cutoff : ℚ) :
    (∀ e, chainCheck S binder_chain target_chain = some e →
      hotspot_residues S binder_chain target_chain cutoff = .error e) ∧
    (chainCheck S binder_chain target_chain = none →
      (hotspot_residues S binder_chain target_chain cutoff).toOption.isSome = true) ∧
    (analyze_interface_contacts S binder_chain target_chain cutoff = none ↔
      chainCheck S binder_chain target_chain ≠ none) := by
  unfold chainCheck hotspot_residues analyze_interface_contacts analyzeContactsBody
  cases hb : findChain S binder_chain with
  | none => simp [Except.toOption]
  | some bc =>
    cases ht : findChain S target_chain with
    | none => simp [Except.toOption]
    | some tc =>
      by_cases hbe : (chainAtoms bc).isEmpty = true
      · simp [hbe, Except.toOption]
      · by_cases hte : (chainAtoms tc).isEmpty = true
        · simp [hbe, hte, Except.toOption]
        · simp [hbe, hte, Except.toOption]

/-- Binder residue with a standard residue name, one atom at the origin. -/
def resW1 : Residue :=
  { resSeq := 1, resName := "ALA", atoms := [{ x := 0, y := 0, z := 0, bfactor := 80 }] }

/-- Binder residue with a non-standard residue name (a ligand-like record),
one atom within the cutoff of the target atom. -/
def resW2 : Residue :=
  { resSeq := 2, resName := "XYZ", atoms := [{ x := 1, y := 0, z := 0, bfactor := 70 }] }

/-- Target residue, one atom 2 Å from the origin. -/
def resWT : Residue :=
  { resSeq := 10, resName := "GLY", atoms := [{ x := 2, y := 0, z := 0, bfactor := 90 }] }

/-- Binder chain of the concrete two-chain structure. -/
def chainW_A : Chain := { id := "A", residues := [resW1, resW2] }

/-- Target chain of the concrete two-chain structure. -/
def chainW_B : Chain := { id := "B", residues := [resWT] }

/-- Concrete two-chain structure: both binder atoms are within 4 Å of the
single target atom; one binder residue is non-standard. -/
def structW : Structure := { chains := [chainW_A, chainW_B] }

/-- Concrete structure that lacks the target chain "B". -/
def structNoTarget : Structure := { chains := [chainW_A] }

/-- C7 counterexample: on a structure without the target chain,
`hotspot_residues` raises the chain-not-found error, but
`analyze_interface_contacts` — which the claim says fails with
`ChainNotFoundError` too — returns `None` instead of surfacing any typed
error. -/
theorem analyze_contacts_swallows_chain_error :
    analyze_interface_contacts structNoTarget "A" "B" 4 = none ∧
    hotspot_residues structNoTarget "A" "B" 4 = .error (.chainNotFound "B") :=
  ⟨rfl, rfl⟩

/-- C7 witness: the amended theorem applied to the missing-chain structure
(chain check fails: hotspot raises, analyze returns `None`) and to the
well-formed structure (chain check passes: hotspot succeeds). -/
theorem interface_chain_error_modes_witness :
    hotspot_residues structNoTarget "A" "B" 4 = .error (.chainNotFound "B") ∧
    analyze_interface_contacts structNoTarget "A" "B" 4 = none ∧
    (hotspot_residues structW "A" "B" 4).toOption.isSome = true := by
  refine ⟨(interface_chain_error_modes structNoTarget "A" "B" 4).1 _ rfl, ?_, ?_⟩
  · exact (interface_chain_error_modes structNoTarget "A" "B" 4).2.2.mpr (by decide)
  · exact (interface_chain_error_modes structW "A" "B" 4).2.1 rfl

/-! C9 — non-standard residues: excluded from sets, counted in contacts. -/

/-- The binder-chain atom list of a structure (empty if the chain is
absent). -/
def chainAtomsOf (S : Structure) (cid : String) : List (Residue × Atom) :=
  match findChain S cid with
  | some c => chainAtoms c
  | none => []

lemma dictInsert_keys (m : List (Int × Char)) (k : Int) (v : Char) :
    ∀ k2 ∈ (dictInsert m k v).map Prod.fst, k2 ∈ m.map Prod.fst ∨ k2 = k := by
  intro k2 hk2
  unfold dictInsert at hk2
  split at hk2
  · rw [List.map_map] at hk2
    obtain ⟨p, hp, hpe⟩ := List.mem_map.mp hk2
    by_cases hpk : p.1 = k
    · right
      rw [Function.comp_apply, if_pos hpk] at hpe
      exact hpe.symm
    · left
      rw [Function.comp_apply, if_neg hpk] at hpe
      exact hpe ▸ List.mem_map_of_mem Prod.fst hp
  · rw [List.map_append] at hk2
    rcases List.mem_append.mp hk2 with h | h
    · exact Or.inl h
    · right
      simpa using h

lemma contactsFold_keys (l : List ((Residue × Atom) × List (Residue × Atom)))
    (st : List (Int × Char) × List (Int × Char) × List Int) :
    ∀ k ∈ (l.foldl contactStep st).1.map Prod.fst,
      k ∈ st.1.map Prod.fst ∨
        ∃ p ∈ l, p.1.1.resSeq = k ∧
          (THREE_TO_ONE_MAP.lookup p.1.1.resName).isSome = true := by
  induction l generalizing st with
  | nil => exact fun k hk => Or.inl hk
  | cons a l ih =>
    intro k hk
    rw [List.foldl_cons] at hk
    rcases ih (contactStep st a) k hk with h | ⟨p, hp, h1, h2⟩
    · unfold contactStep at h
      split at h
      · exact Or.inl h
      · cases hl : THREE_TO_ONE_MAP.lookup a.1.1.resName with
        | none => rw [hl] at h; exact Or.inl h
        | some aa =>
          rw [hl] at h
          dsimp only at h
          rcases dictInsert_keys _ _ _ k h with h3 | h3
          · exact Or.inl h3
          · exact Or.inr ⟨a, List.mem_cons_self _ _, h3.symm, by simp [hl]⟩
    · exact Or.inr ⟨p, List.mem_cons_of_mem _ hp, h1, h2⟩

/-- C9: whenever `analyze_interface_contacts` returns a result, (a) the raw
`atom_contacts` total counts every (binder atom, target atom) pair within
the cutoff — pairs contributed by non-standard binder residues included —
and (b) every entry of the returned `binder_residues` set stems from a
binder atom whose residue name is in the standard-amino-acid map, i.e.
non-standard binder residues are excluded from the returned
interacting-residue set while their contacts still count towards (a). -/
theorem contacts_count_all_but_exclude_nonstandard (S : Structure)
    (binder_chain target_chain : String) (cutoff : ℚ) (r : ContactResult)
    (h : analyze_interface_contacts S binder_chain target_chain cutoff = some r) :
    r.atom_contacts = countContacts S binder_chain target_chain cutoff ∧
    r.binder_residues.all (fun q =>
      (chainAtomsOf S binder_chain).any (fun p =>
        p.1.resSeq == q.1 && (THREE_TO_ONE_MAP.lookup p.1.resName).isSome)) = true := by
  unfold analyze_interface_contacts analyzeContactsBody at h
  cases hb : findChain S binder_chain with
  | none => rw [hb] at h; simp [Except.toOption] at h
  | some bc =>
    rw [hb] at h
    cases ht : findChain S target_chain with
    | none => rw [ht] at h; simp [Except.toOption] at h
    | some tc =>
      rw [ht] at h
      by_cases hbe : (chainAtoms bc).isEmpty = true
      · simp [hbe, Except.toOption] at h
      · by_cases hte : (chainAtoms tc).isEmpty = true
        · simp [hbe, hte, Except.toOption] at h
        · simp only [hbe, hte, Bool.false_eq_true, if_false, Except.toOption,
            Option.some.injEq] at h
          subst h
          constructor
          · unfold countContacts
            rw [hb, ht, List.map_map]
            rfl
          · rw [List.all_eq_true]
            intro q hq
            have hq1 := List.mem_map_of_mem Prod.fst hq
            rcases contactsFold_keys _ _ _ hq1 with h0 | ⟨p, hp, h1, h2⟩
            · simp at h0
            · rw [List.any_eq_true]
              refine ⟨p.1, ?_, ?_⟩
              · have hpz := (List.of_mem_zip hp).1
                simpa [chainAtomsOf, hb] using hpz
              · rw [Bool.and_eq_true, beq_iff_eq]
                exact ⟨h1, h2⟩

/-- The contact-analysis result of the concrete two-chain structure: the
non-standard residue 2 is absent from `binder_residues`, yet both its
contact and residue 1's contact are in `atom_contacts = 2`. -/
def contactW : ContactResult :=
  { binder_residues := [(1, 'A')], target_residues := [(10, 'G')]
    target_residue_list := [10], binder_residue_list := [1]
    total_interface_residues := 2, atom_contacts := 2 }

lemma wcW1 : withinCutoff 4 { x := 0, y := 0, z := 0, bfactor := 80 }
    { x := 2, y := 0, z := 0, bfactor := 90 } = true := by
  norm_num [withinCutoff, distSq]

lemma wcW2 : withinCutoff 4 { x := 1, y := 0, z := 0, bfactor := 70 }
    { x := 2, y := 0, z := 0, bfactor := 90 } = true := by
  norm_num [withinCutoff, distSq]

/-- C9 witness: the theorem applied to the concrete structure whose
non-standard binder residue contributes one of the two counted contacts
but no entry in the returned residue set. -/
theorem contacts_count_all_but_exclude_nonstandard_witness :
    contactW.atom_contacts = countContacts structW "A" "B" 4 ∧
    contactW.binder_residues.all (fun q =>
      (chainAtomsOf structW "A").any (fun p =>
        p.1.resSeq == q.1 && (THREE_TO_ONE_MAP.lookup p.1.resName).isSome)) = true :=
  contacts_count_all_but_exclude_nonstandard structW "A" "B" 4 contactW (by
    simp [analyze_interface_contacts, analyzeContactsBody, findChain, chainAtoms,
      structW, chainW_A, chainW_B, resW1, resW2, resWT, THREE_TO_ONE_MAP,
      contactStep, dictInsert, setAdd, sortInts, contactW, Except.toOption,
      List.find?, List.filter, List.foldl, List.flatMap, List.isEmpty, List.any,
      List.lookup, wcW1, wcW2])

/-! C5 — secondary-structure fractions sum to 100. -/

/-- Global class counters produced by the residue loop. -/
def ssCountsOf (chain : Chain) (dsspTable : List (Int × Char))
    (interacting : List Int) : SSCounts :=
  (ssAggregate chain.residues dsspTable interacting).counts

/-- Interface-restricted class counters produced by the residue loop. -/
def ssICountsOf (chain : Chain) (dsspTable : List (Int × Char))
    (interacting : List Int) : SSCounts :=
  (ssAggregate chain.residues dsspTable interacting).icounts

/-- C5: on every successful `calc_ss_percentage` return the three global
fractions sum to 100 within the ±0.1 rounding tolerance — the classified
residue count is necessarily positive there, since a zero count raises
instead of returning, which also makes the zero-count clause for the
global fractions vacuously true — and the interface-restricted fractions
are all 0 when the interface residue count is 0 and sum to 100 within
±0.1 when it is positive. -/
theorem ss_percentages_sum (S : Structure) (env : DsspEnv)
    (binder_chain target_chain : String) (cutoff : ℚ) (out : SSOut)
    (chain : Chain) (table : List (Int × Char)) (hs : List (Int × Char))
    (h : calc_ss_percentage S env binder_chain target_chain cutoff = .ok out)
    (hchain : findChain S binder_chain = some chain)
    (htable : env.dssp = .ok table)
    (hhs : hotspot_residues S binder_chain target_chain cutoff = .ok hs) :
    (0 < (ssCountsOf chain table (hs.map Prod.fst)).total ∧
      |out.helix_pct + out.sheet_pct + out.loop_pct - 100| ≤ 1 / 10) ∧
    ((ssCountsOf chain table (hs.map Prod.fst)).total = 0 →
      out.helix_pct = 0 ∧ out.sheet_pct = 0 ∧ out.loop_pct = 0) ∧
    ((ssICountsOf chain table (hs.map Prod.fst)).total = 0 →
      out.i_helix_pct = 0 ∧ out.i_sheet_pct = 0 ∧ out.i_loop_pct = 0) ∧
    (0 < (ssICountsOf chain table (hs.map Prod.fst)).total →
      |out.i_helix_pct + out.i_sheet_pct + out.i_loop_pct - 100| ≤ 1 / 10) := by
  unfold calc_ss_percentage at h
  simp only [hchain, htable, hhs] at h
  split at h
  · exact absurd h (by simp)
  · split at h
    · exact absurd h (by simp)
    · split at h
      · exact absurd h (by simp)
      · rename_i htot
        rw [Except.ok.injEq] at h
        subst h
        have hpos : 0 < (ssAggregate chain.residues table (hs.map Prod.fst)).counts.total :=
          Nat.pos_of_ne_zero htot
        have hT : ((ssAggregate chain.residues table (hs.map Prod.fst)).counts.total : ℚ) ≠ 0 := by
          exact_mod_cast htot
        refine ⟨⟨hpos, ?_⟩, ?_, ?_, ?_⟩
        · dsimp only
          rw [if_pos hpos, if_pos hpos, if_pos hpos]
          exact roundTwo_sum_near _ _ _ (pct_sum_eq _ _ _ hT)
        · intro h0
          exact absurd h0 htot
        · intro h0
          dsimp only
          rw [ssICountsOf] at h0
          rw [h0]
          norm_num
        · intro h0
          rw [ssICountsOf] at h0
          dsimp only
          rw [if_pos h0, if_pos h0, if_pos h0]
          have hTi : ((ssAggregate chain.residues table (hs.map Prod.fst)).icounts.total : ℚ) ≠ 0 := by
            exact_mod_cast Nat.pos_iff_ne_zero.mp h0
          exact roundTwo_sum_near _ _ _ (pct_sum_eq _ _ _ hTi)

/-- DSSP table of the concrete run: residue 1 helix, residue 2 sheet. -/
def tableW : List (Int × Char) := [(1, 'H'), (2, 'E')]

/-- DSSP environment of the concrete run: both files exist, DSSP
succeeds. -/
def dsspEnvW : DsspEnv :=
  { pdbExists := true, dsspExists := true, dssp := .ok tableW }

/-- Expected `calc_ss_percentage` output on the concrete structure. -/
def outW : SSOut :=
  { helix_pct := 50, sheet_pct := 50, loop_pct := 0
    i_helix_pct := 100, i_sheet_pct := 0, i_loop_pct := 0
    i_plddt := 4 / 5, ss_plddt := 3 / 4 }

lemma calc_ss_W : calc_ss_percentage structW dsspEnvW "A" "B" 4 = .ok outW := by
  simp [calc_ss_percentage, dsspEnvW, findChain, structW, chainW_A, chainW_B,
    resW1, resW2, resWT, hotspot_residues, chainAtoms, THREE_TO_ONE_MAP,
    dictInsert, tableW, ssAggregate, ssStep, ssClassOf, residuePlddt,
    SSCounts.bump, SSCounts.total, outW, wcW1, wcW2, List.find?, List.filter,
    List.foldl, List.flatMap, List.isEmpty, List.lookup, roundTwo, round_eq]
  norm_num

/-- C5 witness: the theorem applied to the concrete run (2 classified
residues: one helix, one sheet, one of them at the interface). -/
theorem ss_percentages_sum_witness :
    (0 < (ssCountsOf chainW_A tableW ([(1, 'A')].map Prod.fst)).total ∧
      |outW.helix_pct + outW.sheet_pct + outW.loop_pct - 100| ≤ 1 / 10) ∧
    ((ssCountsOf chainW_A tableW ([(1, 'A')].map Prod.fst)).total = 0 →
      outW.helix_pct = 0 ∧ outW.sheet_pct = 0 ∧ outW.loop_pct = 0) ∧
    ((ssICountsOf chainW_A tableW ([(1, 'A')].map Prod.fst)).total = 0 →
      outW.i_helix_pct = 0 ∧ outW.i_sheet_pct = 0 ∧ outW.i_loop_pct = 0) ∧
    (0 < (ssICountsOf chainW_A tableW ([(1, 'A')].map Prod.fst)).total →
      |outW.i_helix_pct + outW.i_sheet_pct + outW.i_loop_pct - 100| ≤ 1 / 10) :=
  ss_percentages_sum structW dsspEnvW "A" "B" 4 outW chainW_A tableW [(1, 'A')]
    calc_ss_W rfl rfl (by
      simp [hotspot_residues, findChain, structW, chainW_A, chainW_B, resW1,
        resW2, resWT, chainAtoms, THREE_TO_ONE_MAP, dictInsert, wcW1, wcW2,
        List.find?, List.filter, List.foldl, List.flatMap, List.isEmpty,
        List.lookup])

/-! C4 — isolation of energetics sub-computations in the interface scorer. -/

/-- The score record of a `score_interface` return value, if one was
produced (`none` both for the `(None, None, None)` load-failure return and
for a propagated exception). -/
def scoreRecOf (r : Except PyErr (Option (ScoreRecord × List (Char × Nat) × String))) :
    Option ScoreRecord :=
  match r with
  | .ok (some (rec, _, _)) => some rec
  | _ => none

/-- C4 (amended): in `score_interface` only the seven guarded statistic
retrievals — shape complementarity, interface h-bond count, dG, dSASA,
packstat, the dG/dSASA ratio, and the buried-unsatisfied-h-bond count —
are isolated: whenever the unguarded parts succeed (structure load,
`iam.apply`, hotspot detection, composition-dict fill, binder total-energy
metric, binder SASA metric, chain split), a record is produced no matter
which of the seven fail, and each of the seven features carries its
computed value or defaults to 0 on failure.  A structure-load failure
returns the all-null `(None, None, None)` record.  Failures of the
unguarded parts propagate instead (see the counterexample). -/
theorem score_isolated_features (S : Structure) (env : RoEnv)
    (binder_chain target_chain : String) :
    (env.load.toOption = none →
      score_interface S env binder_chain target_chain = .ok none) ∧
    (env.load = .ok () → env.iamApply = .ok () →
      ∀ items, hotspot_residues S binder_chain target_chain = .ok items →
      ∀ m ids, aaFold binder_chain items = .ok (m, ids) →
      ∀ bs, env.binder_score_calc = .ok bs →
      ∀ bsa, env.binder_sasa_calc = .ok bsa →
      env.splitChains = .ok () →
      ((scoreRecOf (score_interface S env binder_chain target_chain)).isSome = true ∧
       (scoreRecOf (score_interface S env binder_chain target_chain)).map
          ScoreRecord.interface_sc = some (env.sc_value.toOption.getD 0) ∧
       (scoreRecOf (score_interface S env binder_chain target_chain)).map
          ScoreRecord.interface_interface_hbonds
          = some (env.interface_hbonds.toOption.getD 0) ∧
       (scoreRecOf (score_interface S env binder_chain target_chain)).map
          ScoreRecord.interface_dG = some (env.interface_dG.toOption.getD 0) ∧
       (scoreRecOf (score_interface S env binder_chain target_chain)).map
          ScoreRecord.interface_dSASA = some (env.interface_delta_sasa.toOption.getD 0) ∧
       (scoreRecOf (score_interface S env binder_chain target_chain)).map
          ScoreRecord.interface_packstat = some (env.interface_packstat.toOption.getD 0) ∧
       (scoreRecOf (score_interface S env binder_chain target_chain)).map
          ScoreRecord.interface_dG_SASA_ratio_pct
          = some ((env.dG_dSASA_raw.toOption.map (· * 100)).getD 0) ∧
       (scoreRecOf (score_interface S env binder_chain target_chain)).map
          ScoreRecord.interface_delta_unsat_hbonds
          = some (env.buns.toOption.getD 0))) := by
  constructor
  · intro hload
    unfold score_interface
    cases hl : env.load with
    | error e => simp
    | ok u => rw [hl] at hload; simp [Except.toOption] at hload
  · intro hload hiam items hhs m ids haa bs hbs bsa hbsa hsplit
    unfold score_interface
    simp only [hload, hiam, hhs, haa, hbs, hbsa, hsplit, scoreRecOf]
    exact ⟨rfl, rfl, rfl, rfl, rfl, rfl, rfl, rfl⟩

/-- Rosetta environment in which every external call succeeds. -/
def roEnvOk : RoEnv :=
  { load := .ok (), iamApply := .ok (), sc_value := .ok 1
    interface_hbonds := .ok 2, interface_dG := .ok (-3)
    interface_delta_sasa := .ok 100, interface_packstat := .ok (1 / 2)
    dG_dSASA_raw := .ok (-3 / 100), buns := .ok 1
    binder_score_calc := .ok (-50), binder_sasa_calc := .ok 200
    splitChains := .ok (), surface := [(true, true), (true, false)] }

/-- Rosetta environment whose binder total-energy metric — one of the
energetics sub-computations — raises; everything else succeeds. -/
def roEnvBadBinderScore : RoEnv :=
  { roEnvOk with binder_score_calc := .error "TotalEnergyMetric failed" }

/-- Rosetta environment whose shape-complementarity retrieval raises;
everything else succeeds. -/
def roEnvScFail : RoEnv :=
  { roEnvOk with sc_value := .error "sc_value unavailable" }

/-- Rosetta environment whose initial pose load raises. -/
def roEnvLoadFail : RoEnv :=
  { roEnvOk with load := .error "pose_from_pdb failed" }

/-- C4 counterexample: a failure of the binder total-energy computation —
a single energetics feature — does not default to 0 with the rest of the
record computed, as the claim requires: `score_interface` propagates the
exception and produces no record at all. -/
theorem score_binder_energy_not_isolated :
    score_interface structW roEnvBadBinderScore "A" "B"
      = .error (.generic "TotalEnergyMetric failed") ∧
    scoreRecOf (score_interface structW roEnvBadBinderScore "A" "B") = none := by
  have h1 : score_interface structW roEnvBadBinderScore "A" "B"
      = .error (.generic "TotalEnergyMetric failed") := by
    simp [score_interface, roEnvBadBinderScore, roEnvOk, hotspot_residues, findChain,
      structW, chainW_A, chainW_B, resW1, resW2, resWT, chainAtoms, THREE_TO_ONE_MAP,
      dictInsert, aaFold, aaStep, bumpAA, zeroAA, wcW1, wcW2, List.find?, List.filter,
      List.foldl, List.foldlM, List.flatMap, List.isEmpty, List.lookup]
  exact ⟨h1, by rw [h1]; rfl⟩

/-- C4 witness: the amended theorem applied to the load-failure
environment (all-null record) and to the environment where only the
shape-complementarity retrieval fails (record produced, that feature 0,
the others carrying their computed values). -/
theorem score_isolated_features_witness :
    score_interface structW roEnvLoadFail "A" "B" = .ok none ∧
    (scoreRecOf (score_interface structW roEnvScFail "A" "B")).isSome = true ∧
    (scoreRecOf (score_interface structW roEnvScFail "A" "B")).map
      ScoreRecord.interface_sc = some 0 ∧
    (scoreRecOf (score_interface structW roEnvScFail "A" "B")).map
      ScoreRecord.interface_dG = some (-3) := by
  have hload := (score_isolated_features structW roEnvLoadFail "A" "B").1 rfl
  have hiso := (score_isolated_features structW roEnvScFail "A" "B").2 rfl rfl
    [(1, 'A')] (by
      simp [hotspot_residues, findChain, structW, chainW_A, chainW_B, resW1,
        resW2, resWT, chainAtoms, THREE_TO_ONE_MAP, dictInsert, wcW1, wcW2,
        List.find?, List.filter, List.foldl, List.flatMap, List.isEmpty,
        List.lookup])
    [('A', 1), ('C', 0), ('D', 0), ('E', 0), ('F', 0), ('G', 0), ('H', 0),
     ('I', 0), ('K', 0), ('L', 0), ('M', 0), ('N', 0), ('P', 0), ('Q', 0),
     ('R', 0), ('S', 0), ('T', 0), ('V', 0), ('W', 0), ('Y', 0)]
    ["A1"] rfl (-50) rfl 200 rfl rfl
  exact ⟨hload, hiso.1, hiso.2.1, hiso.2.2.2.1⟩

/-! C10 — interface composition invariants. -/

/-- Total of the composition counts. -/
def aaValsum (m : List (Char × Nat)) : Nat :=
  (m.map Prod.snd).sum

lemma bumpAA_keys (m : List (Char × Nat)) (c : Char) (m' : List (Char × Nat))
    (h : bumpAA m c = .ok m') : m'.map Prod.fst = m.map Prod.fst := by
  unfold bumpAA at h
  split at h
  · rw [Except.ok.injEq] at h
    subst h
    rw [List.map_map]
    apply List.map_congr_left
    intro p _
    by_cases hpc : p.1 = c <;> simp [hpc]
  · simp at h

lemma bump_map_valsum (c : Char) : ∀ (m : List (Char × Nat)),
    (m.map Prod.fst).Nodup → m.any (fun p => p.1 = c) = true →
    aaValsum (m.map (fun p => if p.1 = c then (p.1, p.2 + 1) else p))
      = aaValsum m + 1 := by
  intro m
  induction m with
  | nil => intro _ hany; simp at hany
  | cons a rest ih =>
    intro hnd hany
    rw [List.map_cons, List.nodup_cons] at hnd
    by_cases hac : a.1 = c
    · have hrest : rest.map (fun p => if p.1 = c then (p.1, p.2 + 1) else p)
          = rest.map id := by
        apply List.map_congr_left
        intro p hp
        have hpc : p.1 ≠ c := by
          intro hpc
          apply hnd.1
          have hmem := List.mem_map_of_mem Prod.fst hp
          rw [hpc, ← hac] at hmem
          exact hmem
        simp [hpc]
      rw [List.map_cons, if_pos hac, hrest, List.map_id]
      simp [aaValsum]
      omega
    · have hany2 : rest.any (fun p => p.1 = c) = true := by
        simpa [hac] using hany
      have ihres := ih hnd.2 hany2
      rw [List.map_cons, if_neg hac]
      simp only [aaValsum, List.map_cons, List.sum_cons] at ihres ⊢
      omega

lemma bumpAA_valsum (m : List (Char × Nat)) (c : Char) (m' : List (Char × Nat))
    (hnd : (m.map Prod.fst).Nodup) (h : bumpAA m c = .ok m') :
    aaValsum m' = aaValsum m + 1 := by
  unfold bumpAA at h
  split at h
  · rename_i hany
    rw [Except.ok.injEq] at h
    subst h
    exact bump_map_valsum c m hnd hany
  · simp at h

lemma aaFold_go (binder_chain : String) :
    ∀ (items : List (Int × Char)) (m0 : List (Char × Nat)) (ids0 : List String)
      (m : List (Char × Nat)) (ids : List String),
      (m0.map Prod.fst).Nodup →
      items.foldlM (aaStep binder_chain) (m0, ids0) = .ok (m, ids) →
      m.map Prod.fst = m0.map Prod.fst ∧ aaValsum m = aaValsum m0 + items.length ∧
        ids.length = ids0.length + items.length := by
  intro items
  induction items with
  | nil =>
    intro m0 ids0 m ids _ h
    simp only [List.foldlM_nil] at h
    rw [show (pure (m0, ids0) : Except PyErr _) = .ok (m0, ids0) from rfl,
      Except.ok.injEq, Prod.mk.injEq] at h
    obtain ⟨h1, h2⟩ := h
    subst h1
    subst h2
    simp
  | cons p rest ih =>
    intro m0 ids0 m ids hnd h
    rw [List.foldlM_cons] at h
    cases hstep : aaStep binder_chain (m0, ids0) p with
    | error e =>
      rw [hstep] at h
      simp only [show ∀ f : _ → Except PyErr (List (Char × Nat) × List String),
        (Except.error e >>= f) = Except.error e from fun _ => rfl] at h
      exact absurd h (by simp)
    | ok acc1 =>
      rw [hstep] at h
      obtain ⟨m1, ids1⟩ := acc1
      rw [show ∀ f : _ → Except PyErr (List (Char × Nat) × List String),
        (Except.ok (m1, ids1) >>= f) = f (m1, ids1) from fun _ => rfl] at h
      unfold aaStep at hstep
      cases hbump : bumpAA m0 p.2 with
      | error e => rw [hbump] at hstep; simp at hstep
      | ok mb =>
        rw [hbump] at hstep
        rw [Except.ok.injEq, Prod.mk.injEq] at hstep
        obtain ⟨hm1, hids1⟩ := hstep
        subst hm1
        subst hids1
        have hkeys := bumpAA_keys m0 p.2 mb hbump
        have hnd1 : (mb.map Prod.fst).Nodup := hkeys ▸ hnd
        obtain ⟨k1, k2, k3⟩ := ih mb (ids0 ++ [binder_chain ++ toString p.1]) m ids hnd1 h
        refine ⟨k1.trans hkeys, ?_, ?_⟩
        · rw [k2, bumpAA_valsum m0 p.2 mb hnd hbump]
          simp
          omega
        · rw [k3]
          simp
          omega

/-- C10: whenever `score_interface` completes with a record, the
composition dict has exactly the 20 standard one-letter keys in the fixed
order of its zero-initialization, its counts (naturals, hence
non-negative) sum to `interface_nres`, `interface_nres` is the length of
the interface-residue list returned by the hotspot detection (which is
also the length of the id list the string field joins), and the
hydrogen-bond and buried-unsatisfied-hydrogen-bond percentages are null
exactly when `interface_nres` is 0. -/
theorem score_composition_invariants (S : Structure) (env : RoEnv)
    (binder_chain target_chain : String) (rec : ScoreRecord)
    (aa : List (Char × Nat)) (idsStr : String)
    (h : score_interface S env binder_chain target_chain = .ok (some (rec, aa, idsStr))) :
    aa.map Prod.fst = "ACDEFGHIKLMNPQRSTVWY".toList ∧
    aaValsum aa = rec.interface_nres ∧
    (hotspot_residues S binder_chain target_chain).toOption.map List.length
      = some rec.interface_nres ∧
    (rec.interface_hbond_percentage = none ↔ rec.interface_nres = 0) ∧
    (rec.interface_delta_unsat_hbonds_percentage = none ↔ rec.interface_nres = 0) := by
  unfold score_interface at h
  cases hl : env.load with
  | error e => simp [hl] at h
  | ok u =>
    simp only [hl] at h
    cases hiam : env.iamApply with
    | error e => simp [hiam] at h
    | ok u2 =>
      simp only [hiam] at h
      cases hhs : hotspot_residues S binder_chain target_chain with
      | error e => simp [hhs] at h
      | ok items =>
        simp only [hhs] at h
        cases haa : aaFold binder_chain items with
        | error e => simp [haa] at h
        | ok pr =>
          obtain ⟨m, ids⟩ := pr
          simp only [haa] at h
          cases hbs : env.binder_score_calc with
          | error e => simp [hbs] at h
          | ok bs =>
            simp only [hbs] at h
            cases hbsa : env.binder_sasa_calc with
            | error e => simp [hbsa] at h
            | ok bsa =>
              simp only [hbsa] at h
              cases hsplit : env.splitChains with
              | error e => simp [hsplit] at h
              | ok u3 =>
                simp only [hsplit] at h
                simp only [Except.ok.injEq, Option.some.injEq, Prod.mk.injEq] at h
                obtain ⟨hrec, hm, hids⟩ := h
                subst hm
                unfold aaFold at haa
                have hzk : (zeroAA.map Prod.fst).Nodup := by decide
                obtain ⟨k1, k2, k3⟩ := aaFold_go binder_chain items zeroAA [] m ids hzk haa
                have hzk2 : zeroAA.map Prod.fst = "ACDEFGHIKLMNPQRSTVWY".toList := by decide
                have hzv : aaValsum zeroAA = 0 := by decide
                have hnres : rec.interface_nres = ids.length := by rw [← hrec]
                refine ⟨k1.trans hzk2, ?_, ?_, ?_, ?_⟩
                · rw [k2, hzv, hnres, k3]
                  simp
                · rw [hnres, k3]
                  simp [Except.toOption]
                · rw [hnres, ← hrec]
                  dsimp only
                  by_cases hz : ids.length = 0 <;> simp [hz]
                · rw [hnres, ← hrec]
                  dsimp only
                  by_cases hz : ids.length = 0 <;> simp [hz]

/-- Composition dict of the concrete run: one alanine interface residue. -/
def aaW : List (Char × Nat) :=
  [('A', 1), ('C', 0), ('D', 0), ('E', 0), ('F', 0), ('G', 0), ('H', 0),
   ('I', 0), ('K', 0), ('L', 0), ('M', 0), ('N', 0), ('P', 0), ('Q', 0),
   ('R', 0), ('S', 0), ('T', 0), ('V', 0), ('W', 0), ('Y', 0)]

/-- Score record of the concrete all-successful run. -/
def recW : ScoreRecord :=
  { binder_score := -50, surface_hydrophobicity := 1 / 2, interface_sc := 1
    interface_packstat := 1 / 2, interface_dG := -3, interface_dSASA := 100
    interface_dG_SASA_ratio_pct := -3, interface_fraction := 50
    interface_hydrophobicity := 100, interface_nres := 1
    interface_interface_hbonds := 2, interface_hbond_percentage := some 200
    interface_delta_unsat_hbonds := 1
    interface_delta_unsat_hbonds_percentage := some 100 }

lemma score_interface_W :
    score_interface structW roEnvOk "A" "B" = .ok (some (recW, aaW, "A1")) := by
  simp only [score_interface, roEnvOk]
  simp [hotspot_residues, findChain, structW, chainW_A, chainW_B, resW1,
    resW2, resWT, chainAtoms, THREE_TO_ONE_MAP, dictInsert, aaFold, aaStep,
    bumpAA, zeroAA, wcW1, wcW2, List.find?, List.filter, List.foldl,
    List.foldlM, List.flatMap, List.isEmpty, List.lookup, recW, aaW,
    Except.toOption, String.intercalate, String.intercalate.go]
  all_goals norm_num
  all_goals decide

/-- C10 witness: the theorem applied to the concrete all-successful run
(one interface residue, an alanine). -/
theorem score_composition_invariants_witness :
    aaW.map Prod.fst = "ACDEFGHIKLMNPQRSTVWY".toList ∧
    aaValsum aaW = recW.interface_nres ∧
    (hotspot_residues structW "A" "B").toOption.map List.length
      = some recW.interface_nres ∧
    (recW.interface_hbond_percentage = none ↔ recW.interface_nres = 0) ∧
    (recW.interface_delta_unsat_hbonds_percentage = none ↔ recW.interface_nres = 0) :=
  score_composition_invariants structW roEnvOk "A" "B" recW aaW "A1" score_interface_W
